import Mathlib

/-!
Verification development for the theme subsystem (`src/theme.rs`).

The subsystem keeps one process-wide current `Theme` (eight named color
strings) behind a mutex, resolves a practice identifier to a palette via an
external registry, falls back to a built-in default on a miss, applies the
stored value to the presentation surface, and serializes the stored value
into a CSS custom-property block.

The stateful Rust code is embedded by explicit state passing: the stored
`Theme` is the state, `set_theme` maps a registry, an identifier and the
prior state to the new state (and, in `set_theme_events`, to the trace of
lock / store / apply / unlock effects its body performs).  For the
concurrency claim a small-step interleaving semantics over lock-guarded
micro-operations is defined further below.
-/

/-- Modelled from the spec: the external practice data model
(`crate::models::practice::Colors`, not part of the reviewed sources) — the
nested color-palette record of a practice, with the same eight named string
fields that `theme.rs` reads (`practice.visual.colors.*`). -/
structure Colors where
  background_color : String
  primary_color : String
  secondary_color : String
  tertiary_color : String
  accent_color : String
  text_primary : String
  text_secondary : String
  shadow_color : String
deriving DecidableEq, Repr

/-- Modelled from the spec: the visual sub-structure of a practice record
(only its `colors` field is read by `theme.rs`). -/
structure Visual where
  colors : Colors
deriving DecidableEq, Repr

/-- Modelled from the spec: a practice record (only `visual.colors` is read
by `theme.rs`). -/
structure Practice where
  visual : Visual
deriving DecidableEq, Repr

/-- The `Theme` struct of `theme.rs`: eight named color strings. -/
structure Theme where
  background_color : String
  primary_color : String
  secondary_color : String
  tertiary_color : String
  accent_color : String
  text_primary : String
  text_secondary : String
  shadow_color : String
deriving DecidableEq, Repr

/-- The `Default` impl for `Theme` in `theme.rs`: the built-in default
palette literals. -/
def Theme.default : Theme :=
  { background_color := "#0A0C11"
    primary_color := "#004d4d"
    secondary_color := "#006666"
    tertiary_color := "#008080"
    accent_color := "#00cccc"
    text_primary := "#e6f3f3"
    text_secondary := "#001a1a"
    shadow_color := "rgba(0, 204, 204, 0.2)" }

/-- The initializer of the `CURRENT_THEME` static
(`Lazy::new(|| Mutex::new(Theme::default()))`): the value the store holds
before any `set_theme` call. -/
def current_theme_init : Theme := Theme.default

/-- Modelled from the spec: the external registry lookup
`get_practice_by_id` (`crate::data::practice_loader`, not part of the
reviewed sources) — a pure map from a practice identifier to an optional
practice record.  The embedding takes the registry as a parameter so every
theorem quantifies over all registries. -/
def Registry : Type := String → Option Practice

/-- Effects performed by the body of `set_theme`, in program order:
acquiring the `CURRENT_THEME` mutex, overwriting the stored value,
invoking `apply_theme`, and releasing the mutex when the guard drops. -/
inductive Event where
  | lock : Event
  | store : Theme → Event
  | apply_theme : Theme → Event
  | unlock : Event
deriving DecidableEq, Repr

/-- Returns `true` exactly on Applicator-invocation events. -/
def Event.isApply : Event → Bool
  | Event.apply_theme _ => true
  | _ => false

/-- The body of `set_theme` in `theme.rs`, with its effect trace made
explicit.  It locks the store, then either copies the resolved practice's
palette field-wise into a new `Theme` or resets to `Theme.default`, stores
that value, calls `apply_theme` on the value while still holding the lock,
and unlocks.  The returned pair is (new stored value, effect trace); the
prior stored value is overwritten in both branches. -/
def set_theme_events (reg : Registry) (practice_id : String) (_s : Theme) :
    Theme × List Event :=
  match reg practice_id with
  | some practice =>
      let t : Theme :=
        { background_color := practice.visual.colors.background_color
          primary_color := practice.visual.colors.primary_color
          secondary_color := practice.visual.colors.secondary_color
          tertiary_color := practice.visual.colors.tertiary_color
          accent_color := practice.visual.colors.accent_color
          text_primary := practice.visual.colors.text_primary
          text_secondary := practice.visual.colors.text_secondary
          shadow_color := practice.visual.colors.shadow_color }
      (t, [Event.lock, Event.store t, Event.apply_theme t, Event.unlock])
  | none =>
      (Theme.default,
        [Event.lock, Event.store Theme.default,
         Event.apply_theme Theme.default, Event.unlock])

/-- Function `set_theme` as a state transformer: the new stored `Theme`. -/
def set_theme (reg : Registry) (practice_id : String) (s : Theme) : Theme :=
  (set_theme_events reg practice_id s).1

/-- Function `get_current_theme` in `theme.rs`: locks the store and returns a clone
of the stored value, leaving the state unchanged. -/
def get_current_theme (s : Theme) : Theme := s

/-- Function `get_theme_css` in `theme.rs`: reads the current theme and splices its
eight fields into the `format!` template verbatim.  The literal segments
reproduce the source's whitespace exactly: each declaration line is
indented by twelve spaces and the closing brace by eight. -/
def get_theme_css (s : Theme) : String :=
  let theme := get_current_theme s
  ":root \x7b\n            --background-color: " ++ theme.background_color ++
    ";\n            --primary-color: " ++ theme.primary_color ++
    ";\n            --secondary-color: " ++ theme.secondary_color ++
    ";\n            --tertiary-color: " ++ theme.tertiary_color ++
    ";\n            --accent-color: " ++ theme.accent_color ++
    ";\n            --text-primary: " ++ theme.text_primary ++
    ";\n            --text-secondary: " ++ theme.text_secondary ++
    ";\n            --shadow-color: " ++ theme.shadow_color ++
    ";\n        \x7d"

/-- Function `set_theme` with the error channel made explicit: the only fallible
sub-operation of its body is the registry lookup, and both the hit and the
miss branch of the source produce a value rather than an error. -/
def set_theme_checked (reg : Registry) (practice_id : String) (s : Theme) :
    Except String Theme :=
  match reg practice_id with
  | some _ => Except.ok (set_theme reg practice_id s)
  | none => Except.ok Theme.default

/-- Function `get_current_theme` with the error channel made explicit: its body has
no fallible sub-operation. -/
def get_current_theme_checked (s : Theme) : Except String Theme :=
  Except.ok (get_current_theme s)

/-- Function `get_theme_css` with the error channel made explicit: its body has no
fallible sub-operation. -/
def get_theme_css_checked (s : Theme) : Except String String :=
  Except.ok (get_theme_css s)

/-- The three operations the subsystem exposes to callers. -/
inductive ThemeOp where
  | set_theme : String → ThemeOp
  | get_current_theme : ThemeOp
  | get_theme_css : ThemeOp
deriving DecidableEq, Repr

/-- Effect of one exposed operation on the stored `Theme`: `set_theme`
replaces the whole value; the two read operations leave it unchanged. -/
def runOp (reg : Registry) : ThemeOp → Theme → Theme
  | ThemeOp.set_theme practice_id, s => set_theme reg practice_id s
  | ThemeOp.get_current_theme, s => s
  | ThemeOp.get_theme_css, s => s

/-- Effect of a sequence of exposed operations on the stored `Theme`. -/
def runOps (reg : Registry) (ops : List ThemeOp) (s : Theme) : Theme :=
  ops.foldl (fun st op => runOp reg op st) s

/-- The `Theme` built by field-wise copy from a palette (the struct literal
in `set_theme`'s hit branch, factored over the palette record). -/
def colorsTheme (c : Colors) : Theme :=
  { background_color := c.background_color
    primary_color := c.primary_color
    secondary_color := c.secondary_color
    tertiary_color := c.tertiary_color
    accent_color := c.accent_color
    text_primary := c.text_primary
    text_secondary := c.text_secondary
    shadow_color := c.shadow_color }

/-- The `Theme` built by field-wise copy from a practice's palette. -/
def practiceTheme (practice : Practice) : Theme :=
  colorsTheme practice.visual.colors

/-- The CSS text as the spec section 6 block reads with its indentation
taken literally: each declaration line indented by four spaces and the
closing brace at column zero. -/
def spec_css_four_space (t : Theme) : String :=
  ":root \x7b\n    --background-color: " ++ t.background_color ++
    ";\n    --primary-color: " ++ t.primary_color ++
    ";\n    --secondary-color: " ++ t.secondary_color ++
    ";\n    --tertiary-color: " ++ t.tertiary_color ++
    ";\n    --accent-color: " ++ t.accent_color ++
    ";\n    --text-primary: " ++ t.text_primary ++
    ";\n    --text-secondary: " ++ t.text_secondary ++
    ";\n    --shadow-color: " ++ t.shadow_color ++
    ";\n\x7d"

/-- The CSS text as described by the amended claim: the section 6 lines
with every declaration line indented by twelve spaces and the closing
brace indented by eight spaces, values substituted literally. -/
def spec_css_twelve_space (t : Theme) : String :=
  ":root \x7b\n" ++
    ("            --background-color: " ++ t.background_color ++ ";\n") ++
    ("            --primary-color: " ++ t.primary_color ++ ";\n") ++
    ("            --secondary-color: " ++ t.secondary_color ++ ";\n") ++
    ("            --tertiary-color: " ++ t.tertiary_color ++ ";\n") ++
    ("            --accent-color: " ++ t.accent_color ++ ";\n") ++
    ("            --text-primary: " ++ t.text_primary ++ ";\n") ++
    ("            --text-secondary: " ++ t.text_secondary ++ ";\n") ++
    ("            --shadow-color: " ++ t.shadow_color ++ ";\n") ++
    "        \x7d"

/-- The ten physical lines of the CSS block: the `:root` opener, the eight
declaration lines in the fixed source order with the field values spliced
verbatim, and the closing brace line. -/
def theme_css_lines (t : Theme) : List String :=
  [":root \x7b",
   "            --background-color: " ++ t.background_color ++ ";",
   "            --primary-color: " ++ t.primary_color ++ ";",
   "            --secondary-color: " ++ t.secondary_color ++ ";",
   "            --tertiary-color: " ++ t.tertiary_color ++ ";",
   "            --accent-color: " ++ t.accent_color ++ ";",
   "            --text-primary: " ++ t.text_primary ++ ";",
   "            --text-secondary: " ++ t.text_secondary ++ ";",
   "            --shadow-color: " ++ t.shadow_color ++ ";",
   "        \x7d"]

/-- A concrete sample palette, used to instantiate theorems with
hypotheses at a concrete input. -/
def sampleColors : Colors :=
  { background_color := "#111111"
    primary_color := "#222222"
    secondary_color := "#333333"
    tertiary_color := "#444444"
    accent_color := "#555555"
    text_primary := "#666666"
    text_secondary := "#777777"
    shadow_color := "rgba(1, 2, 3, 0.4)" }

/-- A concrete sample practice carrying `sampleColors`. -/
def samplePractice : Practice := { visual := { colors := sampleColors } }

/-- A concrete registry that resolves exactly the identifier `"sample"`. -/
def sampleRegistry : Registry :=
  fun practice_id => if practice_id = "sample" then some samplePractice else none

/-- A concrete registry that resolves no identifier at all. -/
def emptyRegistry : Registry := fun _ => none

/-!
Small-step interleaving model for the concurrency claim.  Each caller of
`set_theme` is a thread whose critical section is guarded by the
`CURRENT_THEME` mutex; inside it the caller overwrites the stored `Theme`
with its full resolved palette.  To make the mutual-exclusion content of
the mutex visible, the whole-struct overwrite is decomposed into eight
per-field write micro-operations, so that without the lock discipline an
interleaving could mix fields of two palettes.
-/

/-- Micro-operations of one `set_theme` critical section: acquire the
mutex, write one named field of the stored `Theme`, release the mutex. -/
inductive MOp where
  | acquire : MOp
  | write : Nat → String → MOp
  | release : MOp
deriving DecidableEq, Repr

/-- Overwrites one field of a `Theme`, by field index in declaration
order; out-of-range indices leave the value unchanged. -/
def Theme.setField (t : Theme) (i : Nat) (v : String) : Theme :=
  match i with
  | 0 => { t with background_color := v }
  | 1 => { t with primary_color := v }
  | 2 => { t with secondary_color := v }
  | 3 => { t with tertiary_color := v }
  | 4 => { t with accent_color := v }
  | 5 => { t with text_primary := v }
  | 6 => { t with text_secondary := v }
  | 7 => { t with shadow_color := v }
  | _ => t

/-- The eight field writes of one whole-palette store, in declaration
order. -/
def writeOps (c : Colors) : List MOp :=
  [MOp.write 0 c.background_color,
   MOp.write 1 c.primary_color,
   MOp.write 2 c.secondary_color,
   MOp.write 3 c.tertiary_color,
   MOp.write 4 c.accent_color,
   MOp.write 5 c.text_primary,
   MOp.write 6 c.text_secondary,
   MOp.write 7 c.shadow_color]

/-- The micro-operation program of one `set_theme` caller attempting to
store the full palette `c`: acquire, the eight field writes, release. -/
def callProg (c : Colors) : List MOp :=
  MOp.acquire :: (writeOps c ++ [MOp.release])

/-- Effect of one micro-operation on the stored `Theme`. -/
def applyMOp : MOp → Theme → Theme
  | MOp.write i v, t => t.setField i v
  | _, t => t

/-- Effect of a list of micro-operations, run in order. -/
def execMOps : List MOp → Theme → Theme
  | [], t => t
  | op :: rest, t => execMOps rest (applyMOp op t)

/-- A configuration of the interleaved system: the stored `Theme`, the
mutex owner (if any), and per thread its attempted palette and remaining
micro-operations. -/
structure Config where
  store : Theme
  lock : Option Nat
  threads : List (Colors × List MOp)
deriving DecidableEq, Repr

/-- One interleaving step: some thread executes its next micro-operation,
subject to the mutex discipline — `acquire` only when the mutex is free,
`write` and `release` only while owning it. -/
inductive MStep : Config → Config → Prop where
  | acquire (cfg : Config) (i : Nat) (c : Colors) (rest : List MOp)
      (hl : cfg.lock = none)
      (ht : cfg.threads.get? i = some (c, MOp.acquire :: rest)) :
      MStep cfg (Config.mk cfg.store (some i) (cfg.threads.set i (c, rest)))
  | write (cfg : Config) (i : Nat) (c : Colors) (j : Nat) (v : String)
      (rest : List MOp)
      (hl : cfg.lock = some i)
      (ht : cfg.threads.get? i = some (c, MOp.write j v :: rest)) :
      MStep cfg
        (Config.mk (cfg.store.setField j v) (some i) (cfg.threads.set i (c, rest)))
  | release (cfg : Config) (i : Nat) (c : Colors) (rest : List MOp)
      (hl : cfg.lock = some i)
      (ht : cfg.threads.get? i = some (c, MOp.release :: rest)) :
      MStep cfg (Config.mk cfg.store none (cfg.threads.set i (c, rest)))

/-- Reachability under interleaved micro-steps. -/
def Reachable (a b : Config) : Prop := Relation.ReflTransGen MStep a b

/-- The initial configuration for a list of concurrent `set_theme`
callers: default stored value, mutex free, every thread at the start of
its program. -/
def initConfig (ps : List Colors) : Config :=
  Config.mk Theme.default none (ps.map (fun c => (c, callProg c)))

/-- The stored value is unmixed: it is the default or the complete
palette of one of the attempted writes. -/
def GoodStore (ps : List Colors) (t : Theme) : Prop :=
  t = Theme.default ∨ ∃ c ∈ ps, t = colorsTheme c

/-- A thread outside its critical section: not yet started, or done. -/
def IdleRem (c : Colors) (rem : List MOp) : Prop :=
  rem = callProg c ∨ rem = []

/-- A thread inside its critical section, `k` field writes already done:
its remaining operations are the later writes and the release, and running
them on the current stored value yields the thread's full palette. -/
def MidRem (c : Colors) (rem : List MOp) (st : Theme) : Prop :=
  ∃ k, k ≤ 8 ∧ rem = (writeOps c).drop k ++ [MOp.release] ∧
    execMOps rem st = colorsTheme c

/-- Inductive invariant of the interleaved system: thread palettes are
fixed; when the mutex is free the stored value is unmixed and every thread
is idle; when a thread owns the mutex it is mid-critical-section and all
others are idle; and once the mutex is free and some thread has finished,
the stored value is a complete attempted palette. -/
def SysInv (ps : List Colors) (cfg : Config) : Prop :=
  cfg.threads.map Prod.fst = ps ∧
  (cfg.lock = none →
    GoodStore ps cfg.store ∧ ∀ e ∈ cfg.threads, IdleRem e.1 e.2) ∧
  (∀ i, cfg.lock = some i →
    (∃ c rem, cfg.threads.get? i = some (c, rem) ∧ MidRem c rem cfg.store) ∧
    ∀ j e, j ≠ i → cfg.threads.get? j = some e → IdleRem e.1 e.2) ∧
  ((cfg.lock = none ∧ ∃ e ∈ cfg.threads, e.2 = ([] : List MOp)) →
    ∃ c ∈ ps, cfg.store = colorsTheme c)

/-- Fusing an adjacent literal pair inside a right-nested chain of string
appends. -/
theorem string_fuse (a b c : String) (h : a ++ b = c) (z : String) :
    a ++ (b ++ z) = c ++ z := by
  rw [← String.append_assoc, h]

/-- Claim C1: when the registry resolves the identifier to a practice, a
`set_theme` call followed by `get_current_theme` yields a Theme whose
eight fields equal the practice's palette fields under the 1:1
correspondence, with no transposition or truncation. -/
theorem set_theme_hit_propagation (reg : Registry) (practice_id : String)
    (practice : Practice) (s : Theme) (h : reg practice_id = some practice) :
    (get_current_theme (set_theme reg practice_id s)).background_color
        = practice.visual.colors.background_color ∧
    (get_current_theme (set_theme reg practice_id s)).primary_color
        = practice.visual.colors.primary_color ∧
    (get_current_theme (set_theme reg practice_id s)).secondary_color
        = practice.visual.colors.secondary_color ∧
    (get_current_theme (set_theme reg practice_id s)).tertiary_color
        = practice.visual.colors.tertiary_color ∧
    (get_current_theme (set_theme reg practice_id s)).accent_color
        = practice.visual.colors.accent_color ∧
    (get_current_theme (set_theme reg practice_id s)).text_primary
        = practice.visual.colors.text_primary ∧
    (get_current_theme (set_theme reg practice_id s)).text_secondary
        = practice.visual.colors.text_secondary ∧
    (get_current_theme (set_theme reg practice_id s)).shadow_color
        = practice.visual.colors.shadow_color := by
  simp [get_current_theme, set_theme, set_theme_events, h]

/-- Witness for claim C1 at a concrete registry, practice and state. -/
theorem set_theme_hit_propagation_witness :
    sampleRegistry "sample" = some samplePractice ∧
    ((get_current_theme (set_theme sampleRegistry "sample" Theme.default)).background_color
        = samplePractice.visual.colors.background_color ∧
     (get_current_theme (set_theme sampleRegistry "sample" Theme.default)).primary_color
        = samplePractice.visual.colors.primary_color ∧
     (get_current_theme (set_theme sampleRegistry "sample" Theme.default)).secondary_color
        = samplePractice.visual.colors.secondary_color ∧
     (get_current_theme (set_theme sampleRegistry "sample" Theme.default)).tertiary_color
        = samplePractice.visual.colors.tertiary_color ∧
     (get_current_theme (set_theme sampleRegistry "sample" Theme.default)).accent_color
        = samplePractice.visual.colors.accent_color ∧
     (get_current_theme (set_theme sampleRegistry "sample" Theme.default)).text_primary
        = samplePractice.visual.colors.text_primary ∧
     (get_current_theme (set_theme sampleRegistry "sample" Theme.default)).text_secondary
        = samplePractice.visual.colors.text_secondary ∧
     (get_current_theme (set_theme sampleRegistry "sample" Theme.default)).shadow_color
        = samplePractice.visual.colors.shadow_color) :=
  ⟨by decide,
   set_theme_hit_propagation sampleRegistry "sample" samplePractice Theme.default
     (by decide)⟩

/-- Claim C2: when the registry does not resolve the identifier, a
`set_theme` call followed by `get_current_theme` yields exactly the
built-in default Theme, all eight fields equal to the default literals. -/
theorem set_theme_miss_fallback (reg : Registry) (practice_id : String)
    (s : Theme) (h : reg practice_id = none) :
    get_current_theme (set_theme reg practice_id s) = Theme.default ∧
    (get_current_theme (set_theme reg practice_id s)).background_color = "#0A0C11" ∧
    (get_current_theme (set_theme reg practice_id s)).primary_color = "#004d4d" ∧
    (get_current_theme (set_theme reg practice_id s)).secondary_color = "#006666" ∧
    (get_current_theme (set_theme reg practice_id s)).tertiary_color = "#008080" ∧
    (get_current_theme (set_theme reg practice_id s)).accent_color = "#00cccc" ∧
    (get_current_theme (set_theme reg practice_id s)).text_primary = "#e6f3f3" ∧
    (get_current_theme (set_theme reg practice_id s)).text_secondary = "#001a1a" ∧
    (get_current_theme (set_theme reg practice_id s)).shadow_color
        = "rgba(0, 204, 204, 0.2)" := by
  simp [get_current_theme, set_theme, set_theme_events, h, Theme.default]

/-- Witness for claim C2 at a concrete registry, identifier and state. -/
theorem set_theme_miss_fallback_witness :
    emptyRegistry "whm_missing" = none ∧
    (get_current_theme (set_theme emptyRegistry "whm_missing" Theme.default)
        = Theme.default ∧
     (get_current_theme (set_theme emptyRegistry "whm_missing" Theme.default)).background_color = "#0A0C11" ∧
     (get_current_theme (set_theme emptyRegistry "whm_missing" Theme.default)).primary_color = "#004d4d" ∧
     (get_current_theme (set_theme emptyRegistry "whm_missing" Theme.default)).secondary_color = "#006666" ∧
     (get_current_theme (set_theme emptyRegistry "whm_missing" Theme.default)).tertiary_color = "#008080" ∧
     (get_current_theme (set_theme emptyRegistry "whm_missing" Theme.default)).accent_color = "#00cccc" ∧
     (get_current_theme (set_theme emptyRegistry "whm_missing" Theme.default)).text_primary = "#e6f3f3" ∧
     (get_current_theme (set_theme emptyRegistry "whm_missing" Theme.default)).text_secondary = "#001a1a" ∧
     (get_current_theme (set_theme emptyRegistry "whm_missing" Theme.default)).shadow_color
        = "rgba(0, 204, 204, 0.2)") :=
  ⟨rfl,
   set_theme_miss_fallback emptyRegistry "whm_missing" Theme.default rfl⟩

/-- Claim C3: the default Theme — the default constructor's value and the
value the store holds before any `set_theme` call — has exactly the eight
documented literal field values. -/
theorem default_theme_literal_values :
    Theme.default.background_color = "#0A0C11" ∧
    Theme.default.primary_color = "#004d4d" ∧
    Theme.default.secondary_color = "#006666" ∧
    Theme.default.tertiary_color = "#008080" ∧
    Theme.default.accent_color = "#00cccc" ∧
    Theme.default.text_primary = "#e6f3f3" ∧
    Theme.default.text_secondary = "#001a1a" ∧
    Theme.default.shadow_color = "rgba(0, 204, 204, 0.2)" ∧
    current_theme_init = Theme.default :=
  ⟨rfl, rfl, rfl, rfl, rfl, rfl, rfl, rfl, rfl⟩

/-- Claim C6: none of the three exposed operations ever surfaces an error
to the caller — with the error channel made explicit, each returns `ok` on
every input, the registry miss being absorbed into the default fallback. -/
theorem exposed_operations_total (reg : Registry) (practice_id : String)
    (s : Theme) :
    set_theme_checked reg practice_id s
        = Except.ok (set_theme reg practice_id s) ∧
    get_current_theme_checked s = Except.ok (get_current_theme s) ∧
    get_theme_css_checked s = Except.ok (get_theme_css s) := by
  refine ⟨?_, rfl, rfl⟩
  unfold set_theme_checked set_theme set_theme_events
  cases reg practice_id <;> rfl

/-- Claim C7: `get_current_theme` and `get_theme_css` are pure reads —
neither mutates the stored Theme, and repeating either without an
intervening `set_theme` returns an identical result. -/
theorem read_operations_idempotent (reg : Registry) (s : Theme) :
    runOp reg ThemeOp.get_current_theme s = s ∧
    runOp reg ThemeOp.get_theme_css s = s ∧
    get_current_theme (runOp reg ThemeOp.get_current_theme s)
        = get_current_theme s ∧
    get_theme_css (runOp reg ThemeOp.get_theme_css s) = get_theme_css s :=
  ⟨rfl, rfl, rfl, rfl⟩

/-- Claim C8: every `set_theme` call performs exactly one Applicator
invocation, on the value just stored, and the invocation happens after the
lock is taken and before it is released. -/
theorem set_theme_single_apply (reg : Registry) (practice_id : String)
    (s : Theme) :
    ((set_theme_events reg practice_id s).2).filter Event.isApply
        = [Event.apply_theme (set_theme reg practice_id s)] ∧
    ∃ evs1 evs2,
      (set_theme_events reg practice_id s).2
          = evs1 ++ Event.apply_theme (set_theme reg practice_id s) :: evs2 ∧
      Event.lock ∈ evs1 ∧ Event.unlock ∉ evs1 := by
  unfold set_theme set_theme_events
  cases reg practice_id with
  | none =>
      exact ⟨rfl,
        ⟨[Event.lock, Event.store Theme.default], [Event.unlock],
          rfl, by simp, by simp⟩⟩
  | some practice =>
      exact ⟨rfl,
        ⟨[Event.lock, Event.store (practiceTheme practice)], [Event.unlock],
          rfl, by simp, by simp⟩⟩

/-- Running any operation sequence from an unmixed stored value leaves the
stored value unmixed: it is the default, or the full palette of some
practice the registry resolves. -/
theorem runOps_unmixed (reg : Registry) (ops : List ThemeOp) (s : Theme)
    (h : s = Theme.default ∨
      ∃ practice_id practice, reg practice_id = some practice ∧
        s = practiceTheme practice) :
    runOps reg ops s = Theme.default ∨
      ∃ practice_id practice, reg practice_id = some practice ∧
        runOps reg ops s = practiceTheme practice := by
  induction ops generalizing s with
  | nil => simpa [runOps] using h
  | cons op rest ih =>
      have hstep : runOp reg op s = Theme.default ∨
          ∃ practice_id practice, reg practice_id = some practice ∧
            runOp reg op s = practiceTheme practice := by
        cases op with
        | set_theme practice_id =>
            cases hr : reg practice_id with
            | none => exact Or.inl (by simp [runOp, set_theme, set_theme_events, hr])
            | some practice =>
                exact Or.inr ⟨practice_id, practice, hr,
                  by simp [runOp, set_theme, set_theme_events, hr,
                           practiceTheme, colorsTheme]⟩
        | get_current_theme => simpa [runOp] using h
        | get_theme_css => simpa [runOp] using h
      have hfold : runOps reg (op :: rest) s = runOps reg rest (runOp reg op s) := rfl
      rw [hfold]
      exact ih _ hstep

/-- Claim C10: from the initial default, every sequence of exposed
operations leaves the stored Theme either exactly the built-in default or
a complete eight-field copy of a single registry practice's palette —
`set_theme` is the only writer and always replaces the whole value, so no
reachable state mixes fields of different sources. -/
theorem stored_theme_never_mixed (reg : Registry) (ops : List ThemeOp) :
    runOps reg ops Theme.default = Theme.default ∨
      ∃ practice_id practice, reg practice_id = some practice ∧
        runOps reg ops Theme.default = practiceTheme practice :=
  runOps_unmixed reg ops Theme.default (Or.inl rfl)

/-- The serialized CSS block equals the line-by-line twelve-space-indented
text, for every stored Theme. -/
theorem theme_css_block_eq (t : Theme) :
    get_theme_css t = spec_css_twelve_space t := by
  simp [get_theme_css, get_current_theme, spec_css_twelve_space, String.append_assoc]
  rw [string_fuse ":root \x7b\n" "            --background-color: "
        ":root \x7b\n            --background-color: " rfl,
      string_fuse ";\n" "            --primary-color: "
        ";\n            --primary-color: " rfl,
      string_fuse ";\n" "            --secondary-color: "
        ";\n            --secondary-color: " rfl,
      string_fuse ";\n" "            --tertiary-color: "
        ";\n            --tertiary-color: " rfl,
      string_fuse ";\n" "            --accent-color: "
        ";\n            --accent-color: " rfl,
      string_fuse ";\n" "            --text-primary: "
        ";\n            --text-primary: " rfl,
      string_fuse ";\n" "            --text-secondary: "
        ";\n            --text-secondary: " rfl,
      string_fuse ";\n" "            --shadow-color: "
        ";\n            --shadow-color: " rfl]

/-- Joining the ten CSS lines with newlines yields the same line-by-line
twelve-space-indented text. -/
theorem intercalate_css_lines (t : Theme) :
    String.intercalate "\n" (theme_css_lines t) = spec_css_twelve_space t := by
  simp [theme_css_lines, spec_css_twelve_space, String.intercalate,
        String.intercalate.go, String.append_assoc]

/-- Counterexample to claim C4 as stated: on the default Theme the
serialized CSS does not use four-space indentation for the declaration
lines (nor a column-zero closing brace). -/
theorem get_theme_css_not_four_space :
    get_theme_css Theme.default ≠ spec_css_four_space Theme.default := by
  decide

/-- Claim C4 (amended): for every stored Theme, `get_theme_css` returns
exactly the section 6 text — a `:root` opening line, the eight
declaration lines with each field's literal string value substituted
without escaping, and a closing brace — with each declaration line
indented by twelve spaces and the closing brace by eight spaces. -/
theorem get_theme_css_exact_text (t : Theme) :
    get_theme_css t = spec_css_twelve_space t :=
  theme_css_block_eq t

/-- Claim C5: for every stored Theme, the CSS output is exactly the ten
lines joined by newlines — one `:root` opener, the eight declaration
lines in the fixed documented order with each value character-for-character
equal to the corresponding field at the moment of the call, and the
closing brace line. -/
theorem get_theme_css_line_structure (t : Theme) :
    get_theme_css t = String.intercalate "\n" (theme_css_lines t) ∧
    (theme_css_lines t).length = 10 ∧
    ((theme_css_lines t).drop 1).take 8 =
      ["            --background-color: " ++ t.background_color ++ ";",
       "            --primary-color: " ++ t.primary_color ++ ";",
       "            --secondary-color: " ++ t.secondary_color ++ ";",
       "            --tertiary-color: " ++ t.tertiary_color ++ ";",
       "            --accent-color: " ++ t.accent_color ++ ";",
       "            --text-primary: " ++ t.text_primary ++ ";",
       "            --text-secondary: " ++ t.text_secondary ++ ";",
       "            --shadow-color: " ++ t.shadow_color ++ ";"] :=
  ⟨(theme_css_block_eq t).trans (intercalate_css_lines t).symm, rfl, rfl⟩

/-- Setting a list index to the value it already holds is the identity. -/
theorem set_same_of_get? {α : Type} (l : List α) (i : Nat) (a : α)
    (h : l.get? i = some a) : l.set i a = l := by
  induction l generalizing i with
  | nil => simp at h
  | cons x xs ih =>
      cases i with
      | zero =>
          have hx : x = a := by simpa using h
          simp [hx]
      | succ n =>
          have := ih n (by simpa using h)
          simp [this]

/-- Reading back an in-range index just written. -/
theorem get?_set_self {α : Type} (l : List α) (i : Nat) (a b : α)
    (h : l.get? i = some b) : (l.set i a).get? i = some a := by
  rw [List.get?_set_eq, h]
  rfl

/-- Updating only the second component of an entry preserves the list of
first components. -/
theorem map_fst_set_same {α β : Type} (l : List (α × β)) (i : Nat) (c : α)
    (r r' : β) (h : l.get? i = some (c, r)) :
    (l.set i (c, r')).map Prod.fst = l.map Prod.fst := by
  rw [List.map_set]
  apply set_same_of_get?
  rw [List.get?_map, h]
  rfl

/-- Running a micro-operation list one step. -/
theorem execMOps_cons (op : MOp) (rest : List MOp) (t : Theme) :
    execMOps (op :: rest) t = execMOps rest (applyMOp op t) := rfl

/-- Running all eight field writes (then the release) installs the full
palette, whatever the prior stored value was. -/
theorem execMOps_writes_full (c : Colors) (t : Theme) :
    execMOps (writeOps c ++ [MOp.release]) t = colorsTheme c := rfl

/-- Dropping fewer than eight elements of the write block leaves a field
write at the head, never the release. -/
theorem writeOps_drop_cons (c : Colors) (k : Nat) (hk : k < 8) :
    ∃ j v, (writeOps c).drop k = MOp.write j v :: (writeOps c).drop (k + 1) := by
  interval_cases k <;> exact ⟨_, _, rfl⟩

/-- One interleaving step preserves the system invariant. -/
theorem sysInv_step (ps : List Colors) (cfg cfg' : Config)
    (hinv : SysInv ps cfg) (hstep : MStep cfg cfg') : SysInv ps cfg' := by
  obtain ⟨hmap, hnone, hsome, _hfin⟩ := hinv
  cases hstep with
  | acquire i c rest hl ht =>
      obtain ⟨_hgood, hidle⟩ := hnone hl
      have hcall : MOp.acquire :: rest = callProg c := by
        rcases hidle _ (List.get?_mem ht) with h | h
        · exact h
        · exact absurd h (by simp)
      have hrest : rest = writeOps c ++ [MOp.release] := by
        simpa [callProg] using hcall
      refine ⟨(map_fst_set_same _ i c _ rest ht).trans hmap, ?_, ?_, ?_⟩
      · intro hn; exact Option.noConfusion hn
      · intro i' hi'
        injection hi' with hii
        subst hii
        refine ⟨⟨c, rest, get?_set_self _ _ _ _ ht, 0, by omega, by simpa using hrest, ?_⟩, ?_⟩
        · rw [hrest]
          exact execMOps_writes_full c cfg.store
        · intro j e hji hgetj
          have hgetj' : (cfg.threads.set i (c, rest)).get? j = some e := hgetj
          rw [List.get?_set_ne _ _ (Ne.symm hji)] at hgetj'
          exact hidle e (List.get?_mem hgetj')
      · rintro ⟨hn, -⟩; exact Option.noConfusion hn
  | write i c j v rest hl ht =>
      obtain ⟨⟨c₀, rem₀, hget, hmid⟩, hothers⟩ := hsome i hl
      have hh := hget.symm.trans ht
      simp only [Option.some.injEq, Prod.mk.injEq] at hh
      obtain ⟨hc, hr⟩ := hh
      subst hc
      subst hr
      obtain ⟨k, hk, hshape, hexec⟩ := hmid
      have hklt : k < 8 := by
        rcases Nat.lt_or_ge k 8 with h | h
        · exact h
        · have hk8 : k = 8 := by omega
          subst hk8
          rw [show (writeOps c₀).drop 8 = [] from rfl] at hshape
          simp at hshape
      obtain ⟨j', v', hd⟩ := writeOps_drop_cons c₀ k hklt
      rw [hd] at hshape
      simp only [List.cons_append] at hshape
      injection hshape with _h1 h2
      refine ⟨(map_fst_set_same _ i c₀ _ rest ht).trans hmap, ?_, ?_, ?_⟩
      · intro hn; exact Option.noConfusion hn
      · intro i' hi'
        injection hi' with hii
        subst hii
        refine ⟨⟨c₀, rest, get?_set_self _ _ _ _ ht, k + 1, by omega, h2, ?_⟩, ?_⟩
        · exact hexec
        · intro j' e hji hgetj
          have hgetj' : (cfg.threads.set i (c₀, rest)).get? j' = some e := hgetj
          rw [List.get?_set_ne _ _ (Ne.symm hji)] at hgetj'
          exact hothers j' e hji hgetj'
      · rintro ⟨hn, -⟩; exact Option.noConfusion hn
  | release i c rest hl ht =>
      obtain ⟨⟨c₀, rem₀, hget, hmid⟩, hothers⟩ := hsome i hl
      have hh := hget.symm.trans ht
      simp only [Option.some.injEq, Prod.mk.injEq] at hh
      obtain ⟨hc, hr⟩ := hh
      subst hc
      subst hr
      obtain ⟨k, hk, hshape, hexec⟩ := hmid
      have hk8 : k = 8 := by
        rcases Nat.lt_or_ge k 8 with h | h
        · exfalso
          obtain ⟨j', v', hd⟩ := writeOps_drop_cons c₀ k h
          rw [hd] at hshape
          simp only [List.cons_append] at hshape
          injection hshape with h1 _h2
          exact MOp.noConfusion h1
        · omega
      subst hk8
      rw [show (writeOps c₀).drop 8 = [] from rfl] at hshape
      simp only [List.nil_append] at hshape
      injection hshape with _h1 h2
      subst h2
      have hstore : cfg.store = colorsTheme c₀ := by
        simpa [execMOps, applyMOp] using hexec
      have hcps : c₀ ∈ ps := by
        rw [← hmap]
        exact List.mem_map_of_mem Prod.fst (List.get?_mem ht)
      refine ⟨(map_fst_set_same _ i c₀ _ _ ht).trans hmap, ?_, ?_, ?_⟩
      · intro _
        refine ⟨Or.inr ⟨c₀, hcps, hstore⟩, ?_⟩
        intro e he
        rcases List.mem_iff_get?.mp he with ⟨n, hn⟩
        have hn' : (cfg.threads.set i (c₀, [])).get? n = some e := hn
        by_cases hni : n = i
        · subst hni
          rw [get?_set_self _ _ _ _ ht] at hn'
          obtain rfl := Option.some_inj.mp hn'
          exact Or.inr rfl
        · rw [List.get?_set_ne _ _ (Ne.symm hni)] at hn'
          exact hothers n e hni hn'
      · intro i' hi'; exact Option.noConfusion hi'
      · intro _
        exact ⟨c₀, hcps, hstore⟩

/-- The system invariant holds initially. -/
theorem sysInv_init (ps : List Colors) : SysInv ps (initConfig ps) := by
  refine ⟨?_, ?_, ?_, ?_⟩
  · show List.map Prod.fst (ps.map (fun c => (c, callProg c))) = ps
    rw [List.map_map]
    exact List.map_id' ps
  · intro _
    refine ⟨Or.inl rfl, ?_⟩
    intro e he
    simp only [initConfig, List.mem_map] at he
    obtain ⟨c, _hc, rfl⟩ := he
    exact Or.inl rfl
  · intro i hi; exact Option.noConfusion hi
  · rintro ⟨-, e, he, h2⟩
    simp only [initConfig, List.mem_map] at he
    obtain ⟨c, _hc, rfl⟩ := he
    simp [callProg] at h2

/-- The system invariant holds at every reachable configuration. -/
theorem sysInv_reachable (ps : List Colors) (cfg : Config)
    (h : Reachable (initConfig ps) cfg) : SysInv ps cfg := by
  induction h with
  | refl => exact sysInv_init ps
  | tail _hab hbc ih => exact sysInv_step ps _ _ ih hbc

/-- Claim C9: under concurrent `set_theme` calls, whenever the lock is
free the stored Theme is a whole-value snapshot — the default or the
complete palette of one of the attempted writes, never a mix of two source
palettes — and once all calls have completed the stored value equals
exactly one of the attempted writes' full palettes. -/
theorem set_theme_mutual_exclusion (ps : List Colors) (cfg : Config)
    (hreach : Reachable (initConfig ps) cfg) :
    (cfg.lock = none → GoodStore ps cfg.store) ∧
    ((∀ e ∈ cfg.threads, e.2 = ([] : List MOp)) → ps ≠ [] →
      ∃ c ∈ ps, cfg.store = colorsTheme c) := by
  obtain ⟨hmap, hnone, hsome, hfin⟩ := sysInv_reachable ps cfg hreach
  constructor
  · intro hl
    exact (hnone hl).1
  · intro hdone hne
    have hl : cfg.lock = none := by
      cases hcl : cfg.lock with
      | none => rfl
      | some i =>
          obtain ⟨⟨c, rem, hget, k, _hk, hshape, _⟩, -⟩ := hsome i hcl
          have hrem : rem = [] := hdone _ (List.get?_mem hget)
          subst hrem
          exact absurd hshape.symm (by simp)
    have hthne : cfg.threads ≠ [] := by
      intro h0
      rw [h0] at hmap
      exact hne hmap.symm
    obtain ⟨e, he⟩ := List.exists_mem_of_ne_nil cfg.threads hthne
    exact hfin ⟨hl, e, he, hdone e he⟩

/-- Witness for claim C9: a complete concrete execution of one `set_theme`
caller — acquire, the eight field writes, release — after which the stored
value is that caller's full palette. -/
theorem set_theme_mutual_exclusion_witness :
    ∃ c ∈ [sampleColors],
      (Config.mk (colorsTheme sampleColors) none [(sampleColors, [])]).store
        = colorsTheme c := by
  have hreach : Reachable (initConfig [sampleColors])
      (Config.mk (colorsTheme sampleColors) none [(sampleColors, [])]) := by
    refine Relation.ReflTransGen.head (MStep.acquire _ 0 sampleColors _ rfl rfl) ?_
    refine Relation.ReflTransGen.head (MStep.write _ 0 sampleColors 0 _ _ rfl rfl) ?_
    refine Relation.ReflTransGen.head (MStep.write _ 0 sampleColors 1 _ _ rfl rfl) ?_
    refine Relation.ReflTransGen.head (MStep.write _ 0 sampleColors 2 _ _ rfl rfl) ?_
    refine Relation.ReflTransGen.head (MStep.write _ 0 sampleColors 3 _ _ rfl rfl) ?_
    refine Relation.ReflTransGen.head (MStep.write _ 0 sampleColors 4 _ _ rfl rfl) ?_
    refine Relation.ReflTransGen.head (MStep.write _ 0 sampleColors 5 _ _ rfl rfl) ?_
    refine Relation.ReflTransGen.head (MStep.write _ 0 sampleColors 6 _ _ rfl rfl) ?_
    refine Relation.ReflTransGen.head (MStep.write _ 0 sampleColors 7 _ _ rfl rfl) ?_
    refine Relation.ReflTransGen.head (MStep.release _ 0 sampleColors _ rfl rfl) ?_
    exact Relation.ReflTransGen.refl
  exact (set_theme_mutual_exclusion [sampleColors] _ hreach).2 (by decide) (by decide)
